import Mathlib

/-!
Shallow embedding of the plot-diagram application (src/src/App.js).

The source file holds two variants of the same application. The first variant
(lines 33-256) keeps the numeric fields in one record and the two boolean
toggles in a separate record; the second variant (lines 266-438) keeps
everything, booleans included, in a single record. Both variants compute the
same derived metrics; they differ in the drawing component: the first variant
guards the scale computation behind a validity check on the drawing extents
(lines 187-189), the second computes the scale unconditionally (line 390).

JS numbers are modelled as rationals. All divisions in the metrics calculator
are guarded by the code itself (`plotArea > 0 ? ... : 0`), so the rational
convention q / 0 = 0 is never exercised there.
-/

namespace PlotDiagram

/-- Dimensional Input Set of the first variant: the ten numeric fields of the
initial `useState` object (App.js lines 34-45), in source order. -/
structure Inputs where
  plotWidth : ℚ
  plotLength : ℚ
  roadWidth : ℚ
  parkingWidth : ℚ
  parkingLength : ℚ
  setbackFront : ℚ
  setbackBack : ℚ
  setbackLeft : ℚ
  setbackRight : ℚ
  floors : ℚ
deriving DecidableEq

/-- The two boolean toggles of the first variant (App.js lines 47-50). -/
structure Elements where
  parking : Bool
  staircase : Bool
deriving DecidableEq

/-- Default field values of the first variant (App.js lines 34-45). -/
def defaultInputs : Inputs :=
  { plotWidth := 30, plotLength := 60, roadWidth := 30, parkingWidth := 18,
    parkingLength := 18, setbackFront := 10, setbackBack := 5, setbackLeft := 5,
    setbackRight := 5, floors := 5 }

/-- Default toggle values of the first variant (App.js lines 47-50). -/
def defaultElements : Elements := { parking := true, staircase := false }

/-- The record returned by the `calculations` memo (App.js lines 85-92).
The intermediate `groundFloorArea` is not part of the returned record. -/
structure Calculations where
  plotArea : ℚ
  totalBUA : ℚ
  groundCoverage : ℚ
  far : ℚ
  buildableWidth : ℚ
  buildableLength : ℚ
deriving DecidableEq

/-- The `calculations` memo of the first variant (App.js lines 63-93):
plot area, clamped buildable dimensions, ground-floor area, total built-up
area, ground coverage and floor-area ratio, the last two guarded against a
non-positive plot area. -/
def calculations (i : Inputs) : Calculations :=
  let plotArea := i.plotWidth * i.plotLength
  let buildableWidth := i.plotWidth - i.setbackLeft - i.setbackRight
  let buildableLength := i.plotLength - i.setbackFront - i.setbackBack
  let validBuildableWidth := max 0 buildableWidth
  let validBuildableLength := max 0 buildableLength
  let groundFloorArea := validBuildableWidth * validBuildableLength
  let totalBUA := groundFloorArea * i.floors
  let groundCoverage := if 0 < plotArea then groundFloorArea / plotArea * 100 else 0
  let far := if 0 < plotArea then totalBUA / plotArea else 0
  { plotArea := plotArea, totalBUA := totalBUA, groundCoverage := groundCoverage,
    far := far, buildableWidth := validBuildableWidth,
    buildableLength := validBuildableLength }

/-- The intermediate `groundFloorArea` of the `calculations` memo (App.js
line 80): product of the two clamped buildable dimensions. -/
def groundFloorArea (i : Inputs) : ℚ :=
  max 0 (i.plotWidth - i.setbackLeft - i.setbackRight) *
    max 0 (i.plotLength - i.setbackFront - i.setbackBack)

/-- All ten numeric fields are non-negative. -/
def Inputs.NonNeg (i : Inputs) : Prop :=
  0 ≤ i.plotWidth ∧ 0 ≤ i.plotLength ∧ 0 ≤ i.roadWidth ∧ 0 ≤ i.parkingWidth ∧
    0 ≤ i.parkingLength ∧ 0 ≤ i.setbackFront ∧ 0 ≤ i.setbackBack ∧
    0 ≤ i.setbackLeft ∧ 0 ≤ i.setbackRight ∧ 0 ≤ i.floors

/-- Example 2 of the spec: plot width 0, every other field at its default. -/
def exampleTwoInputs : Inputs :=
  { plotWidth := 0, plotLength := 60, roadWidth := 30, parkingWidth := 18,
    parkingLength := 18, setbackFront := 10, setbackBack := 5, setbackLeft := 5,
    setbackRight := 5, floors := 5 }

/-- Example 3 of the spec: left and right setbacks of 20 on a plot of
width 30, every other field at its default. -/
def exampleThreeInputs : Inputs :=
  { plotWidth := 30, plotLength := 60, roadWidth := 30, parkingWidth := 18,
    parkingLength := 18, setbackFront := 10, setbackBack := 5, setbackLeft := 20,
    setbackRight := 20, floors := 5 }

/-- C1: the Metrics Calculator computes plotArea = W * L, the clamped
buildable dimensions, groundFloorArea = buildableWidth * buildableLength,
totalBUA = groundFloorArea * floors, and the two ratios guarded by
plotArea > 0, for every input; on Example 1 (the default inputs W=30, L=60,
setbacks (10,5,5,5), floors=5) it returns plotArea=1800, buildableWidth=20,
buildableLength=45, groundFloorArea=900, totalBUA=4500, groundCoverage=50,
FAR=2.5. -/
theorem C1_metrics_formulas :
    (∀ i : Inputs,
      (calculations i).plotArea = i.plotWidth * i.plotLength ∧
      (calculations i).buildableWidth =
        max 0 (i.plotWidth - i.setbackLeft - i.setbackRight) ∧
      (calculations i).buildableLength =
        max 0 (i.plotLength - i.setbackFront - i.setbackBack) ∧
      groundFloorArea i =
        (calculations i).buildableWidth * (calculations i).buildableLength ∧
      (calculations i).totalBUA = groundFloorArea i * i.floors ∧
      (calculations i).groundCoverage =
        (if 0 < (calculations i).plotArea then
          groundFloorArea i / (calculations i).plotArea * 100 else 0) ∧
      (calculations i).far =
        (if 0 < (calculations i).plotArea then
          (calculations i).totalBUA / (calculations i).plotArea else 0)) ∧
    (calculations defaultInputs =
      { plotArea := 1800, totalBUA := 4500, groundCoverage := 50, far := 5 / 2,
        buildableWidth := 20, buildableLength := 45 } ∧
      groundFloorArea defaultInputs = 900) := by
  refine ⟨fun i => ⟨rfl, rfl, rfl, rfl, rfl, rfl, rfl⟩, ?_, ?_⟩ <;>
    norm_num [calculations, groundFloorArea, defaultInputs, max_def,
      Calculations.mk.injEq]

/-- C5: whenever the computed plot area is 0, both guarded divisions take the
else-branch and the calculator returns groundCoverage = 0 and FAR = 0; no
division by the zero plot area is performed. -/
theorem C5_zero_plot_area (i : Inputs) (h : (calculations i).plotArea = 0) :
    (calculations i).groundCoverage = 0 ∧ (calculations i).far = 0 := by
  simp only [calculations] at h ⊢
  rw [h]
  norm_num

/-- Witness for C5 at Example 2: W=0, L=60 gives plotArea=0, hence
groundCoverage = 0 and FAR = 0. -/
theorem C5_zero_plot_area_witness :
    (calculations exampleTwoInputs).plotArea = 0 ∧
      (calculations exampleTwoInputs).groundCoverage = 0 ∧
      (calculations exampleTwoInputs).far = 0 :=
  ⟨by norm_num [calculations, exampleTwoInputs],
    C5_zero_plot_area exampleTwoInputs (by norm_num [calculations, exampleTwoInputs])⟩

/-- C6: the buildable dimensions returned by the calculator are clamped to be
non-negative for every input, the ground-floor area is the product of the two
clamped values (so it is itself non-negative, never a product of two negative
factors); on Example 3 (setbackLeft = setbackRight = 20, W = 30) the buildable
width clamps to 0 rather than going to -10. -/
theorem C6_clamped_buildable :
    (∀ i : Inputs,
      0 ≤ (calculations i).buildableWidth ∧ 0 ≤ (calculations i).buildableLength ∧
      groundFloorArea i =
        (calculations i).buildableWidth * (calculations i).buildableLength ∧
      0 ≤ groundFloorArea i) ∧
    (calculations exampleThreeInputs).buildableWidth = 0 := by
  refine ⟨fun i => ⟨le_max_left 0 _, le_max_left 0 _, rfl,
    mul_nonneg (le_max_left 0 _) (le_max_left 0 _)⟩, ?_⟩
  norm_num [calculations, exampleThreeInputs, max_def]

/-- C9: the floor-area ratio always equals groundCoverage * floors / 100,
including when the plot area is not positive (both sides are then 0). -/
theorem C9_far_eq_coverage_mul_floors (i : Inputs) :
    (calculations i).far = (calculations i).groundCoverage * i.floors / 100 := by
  simp only [calculations]
  split_ifs with h
  · have hne : i.plotWidth * i.plotLength ≠ 0 := ne_of_gt h
    field_simp
    ring
  · simp

/-- C10: for non-negative inputs the ground coverage never exceeds 100,
because each clamped buildable dimension is at most the corresponding plot
dimension, hence the ground-floor area is at most the plot area. -/
theorem C10_coverage_le_hundred (i : Inputs) (h : i.NonNeg) :
    (calculations i).groundCoverage ≤ 100 := by
  obtain ⟨hW, hL, -, -, -, hsF, hsB, hsL, hsR, -⟩ := h
  simp only [calculations]
  split_ifs with hA
  · have hbW : max 0 (i.plotWidth - i.setbackLeft - i.setbackRight) ≤ i.plotWidth :=
      max_le hW (by linarith)
    have hbL : max 0 (i.plotLength - i.setbackFront - i.setbackBack) ≤ i.plotLength :=
      max_le hL (by linarith)
    have hgfa : max 0 (i.plotWidth - i.setbackLeft - i.setbackRight) *
        max 0 (i.plotLength - i.setbackFront - i.setbackBack) ≤
        i.plotWidth * i.plotLength :=
      mul_le_mul hbW hbL (le_max_left 0 _) hW
    rw [div_mul_eq_mul_div, div_le_iff₀ hA]
    nlinarith
  · norm_num

/-- Witness for C10 at the default inputs: all fields are non-negative and
the resulting ground coverage, 50, is at most 100. -/
theorem C10_coverage_le_hundred_witness :
    defaultInputs.NonNeg ∧ (calculations defaultInputs).groundCoverage ≤ 100 :=
  ⟨by norm_num [Inputs.NonNeg, defaultInputs],
    C10_coverage_le_hundred defaultInputs (by norm_num [Inputs.NonNeg, defaultInputs])⟩

/-- An axis-aligned rectangle in pixel space: x and y of the top-left corner,
then width and height, as emitted in the SVG markup. -/
structure Rect where
  x : ℚ
  y : ℚ
  w : ℚ
  h : ℚ
deriving DecidableEq

/-- The kind of each rectangle primitive emitted by the drawing component:
plot boundary, road strip, buildable area, optional parking, optional
staircase. The text and path decorations (labels, compass, dimension lines)
carry no claim-relevant geometry and are not modelled. -/
inductive PrimKind where
  | plot
  | road
  | buildableArea
  | parking
  | staircase
deriving DecidableEq

/-- A drawing produced by the SVG component: the uniform scale factor, the
width and height of the svg element, and the rectangle primitives in source
order. -/
structure Diagram where
  scale : ℚ
  svgWidth : ℚ
  svgHeight : ℚ
  prims : List (PrimKind × Rect)
deriving DecidableEq

/-- Fixed maximum pixel extent of the drawing (App.js line 184). -/
def MAX_SIZE : ℚ := 500

/-- Fixed padding margin around the drawing (App.js line 183). -/
def PADDING : ℚ := 20

/-- The drawing computed past the guard of the first variant's
`PlotDiagramSVG` (App.js lines 191-254): scale factor, svg extents, scaled
lengths, and the rectangles for the plot, the road, the buildable area, the
conditional parking and the conditional staircase. The scaled front and
right setbacks are computed by the source but used by no rectangle, so they
are not bound here. -/
def diagramBody (i : Inputs) (buildable : Calculations) (elements : Elements) : Diagram :=
  let totalWidthFt := i.plotWidth
  let totalHeightFt := i.plotLength + i.roadWidth
  let scale := min (MAX_SIZE / totalWidthFt) (MAX_SIZE / totalHeightFt)
  let svgWidth := totalWidthFt * scale + PADDING * 2
  let svgHeight := totalHeightFt * scale + PADDING * 2
  let pW := i.plotWidth * scale
  let pL := i.plotLength * scale
  let rW := i.roadWidth * scale
  let sB := i.setbackBack * scale
  let sL := i.setbackLeft * scale
  let bW := buildable.buildableWidth * scale
  let bL := buildable.buildableLength * scale
  let parkW := i.parkingWidth * scale
  let parkL := i.parkingLength * scale
  let parkX := sL + (bW - parkW) / 2
  let parkY := sB + bL - parkL
  let stairW := 8 * scale
  let stairL := 12 * scale
  let stairX := sL + 10
  let stairY := sB + 10
  { scale := scale, svgWidth := svgWidth, svgHeight := svgHeight,
    prims :=
      [(PrimKind.plot, ⟨0, 0, pW, pL⟩),
        (PrimKind.road, ⟨0, pL, pW, rW⟩),
        (PrimKind.buildableArea, ⟨sL, sB, bW, bL⟩)] ++
      (if elements.parking = true ∧ 0 < i.parkingWidth ∧ 0 < i.parkingLength then
        [(PrimKind.parking, ⟨parkX, parkY, parkW, parkL⟩)] else []) ++
      (if elements.staircase = true then
        [(PrimKind.staircase, ⟨stairX, stairY, stairW, stairL⟩)] else []) }

/-- The first variant's `PlotDiagramSVG` component (App.js lines 170-256):
if either drawing extent (total width = plot width, total height = plot
length + road width) is non-positive, it returns the placeholder (`none`,
the "Enter valid dimensions" div of line 188) before any scale computation;
otherwise the drawing. -/
def PlotDiagramSVG (i : Inputs) (buildable : Calculations) (elements : Elements) :
    Option Diagram :=
  if i.plotWidth ≤ 0 ∨ i.plotLength + i.roadWidth ≤ 0 then none
  else some (diagramBody i buildable elements)

lemma plotDiagramSVG_eq_none (i : Inputs) (b : Calculations) (e : Elements) :
    PlotDiagramSVG i b e = none ↔
      i.plotWidth ≤ 0 ∨ i.plotLength + i.roadWidth ≤ 0 := by
  unfold PlotDiagramSVG
  split_ifs with h <;> simp [h]

lemma plotDiagramSVG_some {i : Inputs} {b : Calculations} {e : Elements} {d : Diagram}
    (hd : PlotDiagramSVG i b e = some d) :
    0 < i.plotWidth ∧ 0 < i.plotLength + i.roadWidth ∧ d = diagramBody i b e := by
  unfold PlotDiagramSVG at hd
  split_ifs at hd with h
  push_neg at h
  injection hd with hd
  exact ⟨h.1, h.2, hd.symm⟩

/-- C2 (amended to the first variant): the first variant's drawing component
returns the placeholder exactly when the total drawing width or the total
drawing height is non-positive, and whenever it returns a drawing both
extents are positive and only then is the scale-factor division performed.
The second variant has no such guard (see the counterexample theorem). -/
theorem C2_invalid_extent_guard (i : Inputs) (b : Calculations) (e : Elements) :
    (PlotDiagramSVG i b e = none ↔
      i.plotWidth ≤ 0 ∨ i.plotLength + i.roadWidth ≤ 0) ∧
    ∀ d : Diagram, PlotDiagramSVG i b e = some d →
      (0 < i.plotWidth ∧ 0 < i.plotLength + i.roadWidth) ∧
      d.scale = min (MAX_SIZE / i.plotWidth) (MAX_SIZE / (i.plotLength + i.roadWidth)) := by
  refine ⟨plotDiagramSVG_eq_none i b e, fun d hd => ?_⟩
  obtain ⟨hw, hh, hdb⟩ := plotDiagramSVG_some hd
  subst hdb
  exact ⟨⟨hw, hh⟩, rfl⟩

/-- Witness for C2: at plot width 0 the first variant returns the
placeholder, and at the default inputs the produced drawing carries the
guarded scale quotient. -/
theorem C2_invalid_extent_guard_witness :
    PlotDiagramSVG exampleTwoInputs (calculations exampleTwoInputs) defaultElements = none ∧
    (diagramBody defaultInputs (calculations defaultInputs) defaultElements).scale =
      min (MAX_SIZE / defaultInputs.plotWidth)
        (MAX_SIZE / (defaultInputs.plotLength + defaultInputs.roadWidth)) :=
  ⟨(C2_invalid_extent_guard exampleTwoInputs (calculations exampleTwoInputs)
      defaultElements).1.mpr (Or.inl (by norm_num [exampleTwoInputs])),
    ((C2_invalid_extent_guard defaultInputs (calculations defaultInputs) defaultElements).2
      (diagramBody defaultInputs (calculations defaultInputs) defaultElements)
      (by norm_num [PlotDiagramSVG, defaultInputs])).2⟩

/-- C3: whenever the first variant draws, its scale factor is exactly
min(MAX_SIZE / w, MAX_SIZE / h) for the two drawing extents w and h, the
binding extent scales exactly to MAX_SIZE, and the other extent scales to at
most MAX_SIZE. -/
theorem C3_scale_fits_box (i : Inputs) (b : Calculations) (e : Elements) (d : Diagram)
    (hd : PlotDiagramSVG i b e = some d) :
    d.scale = min (MAX_SIZE / i.plotWidth) (MAX_SIZE / (i.plotLength + i.roadWidth)) ∧
    d.scale * max i.plotWidth (i.plotLength + i.roadWidth) = MAX_SIZE ∧
    d.scale * min i.plotWidth (i.plotLength + i.roadWidth) ≤ MAX_SIZE := by
  obtain ⟨hw, hh, hdb⟩ := plotDiagramSVG_some hd
  subst hdb
  have hM : (0:ℚ) ≤ MAX_SIZE := by norm_num [MAX_SIZE]
  have hscale : (diagramBody i b e).scale =
      min (MAX_SIZE / i.plotWidth) (MAX_SIZE / (i.plotLength + i.roadWidth)) := rfl
  rw [hscale]
  refine ⟨rfl, ?_, ?_⟩ <;>
    rcases le_total i.plotWidth (i.plotLength + i.roadWidth) with hwh | hhw
  · have hdiv : MAX_SIZE / (i.plotLength + i.roadWidth) ≤ MAX_SIZE / i.plotWidth := by
      gcongr
    rw [min_eq_right hdiv, max_eq_right hwh]
    exact div_mul_cancel₀ MAX_SIZE hh.ne'
  · have hdiv : MAX_SIZE / i.plotWidth ≤ MAX_SIZE / (i.plotLength + i.roadWidth) := by
      gcongr
    rw [min_eq_left hdiv, max_eq_left hhw]
    exact div_mul_cancel₀ MAX_SIZE hw.ne'
  · have hdiv : MAX_SIZE / (i.plotLength + i.roadWidth) ≤ MAX_SIZE / i.plotWidth := by
      gcongr
    rw [min_eq_right hdiv, min_eq_left hwh]
    calc MAX_SIZE / (i.plotLength + i.roadWidth) * i.plotWidth ≤
        MAX_SIZE / (i.plotLength + i.roadWidth) * (i.plotLength + i.roadWidth) :=
          mul_le_mul_of_nonneg_left hwh (div_nonneg hM hh.le)
      _ = MAX_SIZE := div_mul_cancel₀ MAX_SIZE hh.ne'
  · have hdiv : MAX_SIZE / i.plotWidth ≤ MAX_SIZE / (i.plotLength + i.roadWidth) := by
      gcongr
    rw [min_eq_left hdiv, min_eq_right hhw]
    calc MAX_SIZE / i.plotWidth * (i.plotLength + i.roadWidth) ≤
        MAX_SIZE / i.plotWidth * i.plotWidth :=
          mul_le_mul_of_nonneg_left hhw (div_nonneg hM hw.le)
      _ = MAX_SIZE := div_mul_cancel₀ MAX_SIZE hw.ne'

/-- Witness for C3 at the default inputs: the drawing is produced and its
scale times the larger extent equals MAX_SIZE. -/
theorem C3_scale_fits_box_witness :
    (diagramBody defaultInputs (calculations defaultInputs) defaultElements).scale *
      max defaultInputs.plotWidth (defaultInputs.plotLength + defaultInputs.roadWidth) =
      MAX_SIZE :=
  (C3_scale_fits_box defaultInputs (calculations defaultInputs) defaultElements
    (diagramBody defaultInputs (calculations defaultInputs) defaultElements)
    (by norm_num [PlotDiagramSVG, defaultInputs])).2.1

/-- C4: a parking rectangle is among the drawing's primitives exactly when
the parking toggle is on and both parking dimensions are positive; any
parking rectangle drawn is centered horizontally in the buildable rectangle
(whose left edge is at the scaled left setback and whose width is the scaled
buildable width) and flush against its far edge (the edge at the scaled back
setback plus the scaled buildable length). -/
theorem C4_parking_rect (i : Inputs) (b : Calculations) (e : Elements) (d : Diagram)
    (hd : PlotDiagramSVG i b e = some d) :
    ((∃ r : Rect, (PrimKind.parking, r) ∈ d.prims) ↔
      e.parking = true ∧ 0 < i.parkingWidth ∧ 0 < i.parkingLength) ∧
    ∀ r : Rect, (PrimKind.parking, r) ∈ d.prims →
      r.x + r.w / 2 = i.setbackLeft * d.scale + b.buildableWidth * d.scale / 2 ∧
      r.y + r.h = i.setbackBack * d.scale + b.buildableLength * d.scale := by
  obtain ⟨hw, hh, hdb⟩ := plotDiagramSVG_some hd
  subst hdb
  by_cases hp : e.parking = true ∧ 0 < i.parkingWidth ∧ 0 < i.parkingLength <;>
    by_cases hs : e.staircase = true <;>
      constructor <;>
        simp [diagramBody, hp, hs] <;>
          try ring

/-- Witness for C4 at the default inputs and toggles: the parking toggle is
on and both parking dimensions are 18, so a parking rectangle is among the
drawn primitives. -/
theorem C4_parking_rect_witness :
    ∃ r : Rect, (PrimKind.parking, r) ∈
      (diagramBody defaultInputs (calculations defaultInputs) defaultElements).prims :=
  (C4_parking_rect defaultInputs (calculations defaultInputs) defaultElements
    (diagramBody defaultInputs (calculations defaultInputs) defaultElements)
    (by norm_num [PlotDiagramSVG, defaultInputs])).1.mpr
    ⟨rfl, by norm_num [defaultInputs], by norm_num [defaultInputs]⟩

/-- C8: the Metrics Calculator and the drawing component are deterministic
pure functions of their inputs: evaluating them on equal Dimensional Input
Sets (and equal toggles) yields identical Derived Metrics and an identical
drawing. -/
theorem C8_deterministic_pure (i j : Inputs) (e f : Elements)
    (hij : i = j) (hef : e = f) :
    calculations i = calculations j ∧
      PlotDiagramSVG i (calculations i) e = PlotDiagramSVG j (calculations j) f := by
  subst hij
  subst hef
  exact ⟨rfl, rfl⟩

/-- Witness for C8 at the default inputs and toggles. -/
theorem C8_deterministic_pure_witness :
    calculations defaultInputs = calculations defaultInputs ∧
      PlotDiagramSVG defaultInputs (calculations defaultInputs) defaultElements =
        PlotDiagramSVG defaultInputs (calculations defaultInputs) defaultElements :=
  C8_deterministic_pure defaultInputs defaultInputs defaultElements defaultElements rfl rfl

/-- Dimensional Input Set of the second variant (App.js lines 267-284): the
same ten numeric fields plus the two toggles and the staircase geometry,
all in one record. -/
structure InputsV2 where
  plotWidth : ℚ
  plotLength : ℚ
  roadWidth : ℚ
  parkingWidth : ℚ
  parkingLength : ℚ
  setbackFront : ℚ
  setbackBack : ℚ
  setbackLeft : ℚ
  setbackRight : ℚ
  floors : ℚ
  addParking : Bool
  addStaircase : Bool
  stairWidth : ℚ
  stairLength : ℚ
  stairX : ℚ
  stairY : ℚ
deriving DecidableEq

/-- The second variant's `calculations` memo (App.js lines 296-313): the same
arithmetic as the first variant's, with the clamps applied inline. -/
def calculationsV2 (i : InputsV2) : Calculations :=
  let plotArea := i.plotWidth * i.plotLength
  let buildableWidth := max 0 (i.plotWidth - i.setbackLeft - i.setbackRight)
  let buildableLength := max 0 (i.plotLength - i.setbackFront - i.setbackBack)
  let groundFloorArea := buildableWidth * buildableLength
  let totalBUA := groundFloorArea * i.floors
  let groundCoverage := if 0 < plotArea then groundFloorArea / plotArea * 100 else 0
  let far := if 0 < plotArea then totalBUA / plotArea else 0
  { plotArea := plotArea, totalBUA := totalBUA, groundCoverage := groundCoverage,
    far := far, buildableWidth := buildableWidth, buildableLength := buildableLength }

/-- The second variant's `PlotDiagramSVG` (App.js lines 384-438). It has no
validity guard: the scale quotient is computed for every input and an SVG
drawing is always returned, never a placeholder. The codomain is kept as
`Option Diagram` so that its guard behaviour can be compared with the first
variant's; `none` is unreachable. At a zero extent JS produces an Infinity
quotient where the rational convention gives q / 0 = 0; only facts about
whether a drawing is produced — not about its numeric content at such
degenerate inputs — are stated against this definition. -/
def PlotDiagramSVGV2 (i : InputsV2) (buildable : Calculations) : Option Diagram :=
  let totalWidthFt := i.plotWidth
  let totalHeightFt := i.plotLength + i.roadWidth
  let scale := min (MAX_SIZE / totalWidthFt) (MAX_SIZE / totalHeightFt)
  let svgWidth := totalWidthFt * scale + PADDING * 2
  let svgHeight := totalHeightFt * scale + PADDING * 2
  let pW := i.plotWidth * scale
  let pL := i.plotLength * scale
  let rW := i.roadWidth * scale
  let sB := i.setbackBack * scale
  let sL := i.setbackLeft * scale
  let bW := buildable.buildableWidth * scale
  let bL := buildable.buildableLength * scale
  some
    { scale := scale, svgWidth := svgWidth, svgHeight := svgHeight,
      prims :=
        [(PrimKind.plot, ⟨0, 0, pW, pL⟩),
          (PrimKind.road, ⟨0, pL, pW, rW⟩),
          (PrimKind.buildableArea, ⟨sL, sB, bW, bL⟩)] ++
        (if i.addParking = true ∧ 0 < i.parkingWidth ∧ 0 < i.parkingLength then
          [(PrimKind.parking,
            ⟨sL + (bW - i.parkingWidth * scale) / 2,
              sB + bL - i.parkingLength * scale,
              i.parkingWidth * scale, i.parkingLength * scale⟩)] else []) ++
        (if i.addStaircase = true ∧ 0 < i.stairWidth ∧ 0 < i.stairLength then
          [(PrimKind.staircase,
            ⟨i.stairX * scale, i.stairY * scale, i.stairWidth * scale,
              i.stairLength * scale⟩)] else []) }

/-- Second-variant defaults (App.js lines 267-284) with the plot width set
to 0: the total drawing width is then non-positive, the case C2 claims
yields no drawable output. -/
def zeroWidthInputsV2 : InputsV2 :=
  { plotWidth := 0, plotLength := 60, roadWidth := 30, parkingWidth := 18,
    parkingLength := 18, setbackFront := 10, setbackBack := 5, setbackLeft := 5,
    setbackRight := 5, floors := 5, addParking := true, addStaircase := true,
    stairWidth := 6, stairLength := 10, stairX := 0, stairY := 0 }

/-- C2 counterexample: the second variant's drawing component, at plot
width 0 (total drawing width ≤ 0), still produces an SVG drawing instead of
the claimed "invalid dimensions" placeholder — it has no guard and computes
the scale quotient unconditionally. -/
theorem C2_counterexample_v2_no_guard :
    zeroWidthInputsV2.plotWidth ≤ 0 ∧
      (PlotDiagramSVGV2 zeroWidthInputsV2 (calculationsV2 zeroWidthInputsV2)).isSome = true := by
  constructor
  · norm_num [zeroWidthInputsV2]
  · rfl

/-- The named numeric fields of the first variant's input set: the closed
enumeration behind the dynamic `e.target.name` access of `handleChange`. -/
inductive Field where
  | plotWidth
  | plotLength
  | roadWidth
  | parkingWidth
  | parkingLength
  | setbackFront
  | setbackBack
  | setbackLeft
  | setbackRight
  | floors
deriving DecidableEq

/-- Write one named field: the computed-key spread of App.js line 56. -/
def setField (i : Inputs) : Field → ℚ → Inputs
  | .plotWidth, v => { i with plotWidth := v }
  | .plotLength, v => { i with plotLength := v }
  | .roadWidth, v => { i with roadWidth := v }
  | .parkingWidth, v => { i with parkingWidth := v }
  | .parkingLength, v => { i with parkingLength := v }
  | .setbackFront, v => { i with setbackFront := v }
  | .setbackBack, v => { i with setbackBack := v }
  | .setbackLeft, v => { i with setbackLeft := v }
  | .setbackRight, v => { i with setbackRight := v }
  | .floors, v => { i with floors := v }

/-- Read one named field. -/
def getField (i : Inputs) : Field → ℚ
  | .plotWidth => i.plotWidth
  | .plotLength => i.plotLength
  | .roadWidth => i.roadWidth
  | .parkingWidth => i.parkingWidth
  | .parkingLength => i.parkingLength
  | .setbackFront => i.setbackFront
  | .setbackBack => i.setbackBack
  | .setbackLeft => i.setbackLeft
  | .setbackRight => i.setbackRight
  | .floors => i.floors

/-- The first variant's `handleChange` (App.js lines 54-57). The entry box
yields `parseFloat(value)`, modelled as `none` when the text does not parse
to a number (NaN) and as `some q` otherwise; `parseFloat(value) || 0`
collapses NaN to 0 (and maps 0 to itself), and `Math.max(0, _)` clamps the
result before it is stored. -/
def handleChange (i : Inputs) (f : Field) (v : Option ℚ) : Inputs :=
  setField i f (max 0 (v.getD 0))

/-- States of the Dimensional Input Set reachable from the defaults through
`handleChange` updates. -/
inductive Reachable : Inputs → Prop where
  | init : Reachable defaultInputs
  | step (i : Inputs) (f : Field) (v : Option ℚ) :
      Reachable i → Reachable (handleChange i f v)

lemma getField_setField (i : Inputs) (f : Field) (v : ℚ) :
    getField (setField i f v) f = v := by
  cases f <;> rfl

lemma nonNeg_setField {i : Inputs} (h : i.NonNeg) (f : Field) {v : ℚ} (hv : 0 ≤ v) :
    (setField i f v).NonNeg := by
  obtain ⟨h1, h2, h3, h4, h5, h6, h7, h8, h9, h10⟩ := h
  cases f <;> exact ⟨by assumption, by assumption, by assumption, by assumption,
    by assumption, by assumption, by assumption, by assumption, by assumption,
    by assumption⟩

/-- C7: after any `handleChange` update the stored value of the edited field
is non-negative — a negative parse result is clamped to 0 and a failed parse
(NaN) is coerced to 0 — and therefore every state reachable from the
defaults has all ten numeric fields non-negative. -/
theorem C7_nonneg_invariant :
    (∀ (i : Inputs) (f : Field) (q : ℚ), q < 0 →
      getField (handleChange i f (some q)) f = 0) ∧
    (∀ (i : Inputs) (f : Field), getField (handleChange i f none) f = 0) ∧
    (∀ i : Inputs, Reachable i → i.NonNeg) := by
  refine ⟨fun i f q hq => ?_, fun i f => ?_, fun i hr => ?_⟩
  · rw [handleChange, getField_setField, Option.getD_some]
    exact max_eq_left hq.le
  · rw [handleChange, getField_setField, Option.getD_none]
    exact max_self 0
  · induction hr with
    | init => exact ⟨by norm_num [defaultInputs], by norm_num [defaultInputs],
        by norm_num [defaultInputs], by norm_num [defaultInputs],
        by norm_num [defaultInputs], by norm_num [defaultInputs],
        by norm_num [defaultInputs], by norm_num [defaultInputs],
        by norm_num [defaultInputs], by norm_num [defaultInputs]⟩
    | step j f v hj ih => exact nonNeg_setField ih f (le_max_left 0 _)

/-- Witness for C7: a negative entry of -7 into the plot-width field is
stored as 0, a failed parse into the floors field is stored as 0, and the
state after the negative entry still satisfies the invariant. -/
theorem C7_nonneg_invariant_witness :
    getField (handleChange defaultInputs Field.plotWidth (some (-7))) Field.plotWidth = 0 ∧
      getField (handleChange defaultInputs Field.floors none) Field.floors = 0 ∧
      (handleChange defaultInputs Field.plotWidth (some (-7))).NonNeg :=
  ⟨C7_nonneg_invariant.1 defaultInputs Field.plotWidth (-7) (by norm_num),
    C7_nonneg_invariant.2.1 defaultInputs Field.floors,
    C7_nonneg_invariant.2.2 _
      (Reachable.step defaultInputs Field.plotWidth (some (-7)) Reachable.init)⟩

end PlotDiagram
